import Mathlib

/-!
Shallow embedding of the `llm-pr-bot` GitHub action (files
`pr_bot_agentic.py`, `pr_bot.py`, `utils.py`) and proofs about its
tool-use loop, tool dispatcher and agentic fallback path.

Side effects (filesystem reads, subprocess invocations, HTTP calls,
LLM requests) are abstracted as oracle functions carried in explicit
environment records; the control flow and all string formatting are
translated directly from the Python source.
-/

namespace PrBot

/-- A JSON scalar as it appears in tool arguments (`tool_input` values).
The tool schemas only use strings and integers. -/
inductive JVal where
  | str (s : String)
  | num (n : Int)
  deriving DecidableEq, Repr

/-- A tool-argument mapping (`tool_input : dict`), as an association list
with unique keys; lookup takes the first binding. -/
abbrev ToolInput := List (String × JVal)

/-- `tool_input.get(key)` / `tool_input[key]` lookup. -/
def getArg (input : ToolInput) (key : String) : Option JVal :=
  match input.find? (fun kv => kv.fst == key) with
  | some kv => some kv.snd
  | none => none

/-- A Python exception escaping a function boundary (uncaught). -/
inductive PyErr where
  | keyError (key : String)
  | typeError (msg : String)
  deriving DecidableEq, Repr

/-- Outcome of a `subprocess.run` invocation: a completed process with
return code and captured stdout, or a `TimeoutExpired` exception. -/
inductive ProcOutcome where
  | res (returncode : Int) (stdout : String)
  | timeout
  deriving DecidableEq, Repr

/-- One entry of a directory listing (`os.listdir` plus `isdir`/`getsize`). -/
inductive DirEntry where
  | dir (name : String)
  | file (name : String) (size : Nat)
  deriving DecidableEq, Repr

/-- Name of a directory entry. -/
def DirEntry.name : DirEntry → String
  | .dir n => n
  | .file n _ => n

/-- A filesystem node as observed by `list_directory`:
either a plain file or a directory with its entries. -/
inductive FsNode where
  | file (size : Nat)
  | dir (entries : List DirEntry)
  deriving DecidableEq, Repr

/-- One changed-file descriptor of the pull request
(`{"filename", "status", "additions", "deletions", "patch"}`). -/
structure PrFile where
  filename : String
  status : String
  additions : Nat
  deletions : Nat
  patch : Option String
  deriving DecidableEq, Repr

/-- The fields of the `pull_request` event payload the tools read. -/
structure PrData where
  title : String
  body : Option String
  base_ref : String
  head_ref : String
  deriving DecidableEq, Repr

/-- The `ToolContext` object passed to tool handlers. -/
structure ToolContext where
  owner : String
  repo : String
  pr_number : Nat
  head_sha : String
  github_token : String
  repo_path : String
  pr_data : PrData
  pr_files : List PrFile

/-- Oracles for the side effects `execute_tool` performs: local checkout
reads, the GitHub contents API, `rg`/`grep` subprocesses, and `os` directory
inspection.  Paths are relative to `repo_path` (the `os.path.join` with
`repo_path` is folded into the oracle). -/
structure ToolEnv where
  /-- `os.path.exists ∧ os.path.isfile` plus `open(...).read()`:
  `some content` when a regular file exists locally. -/
  localFile : String → Option String
  /-- `get_file_content(owner, repo, head_sha, path, token)`:
  empty string when absent. -/
  remote : String → String
  /-- The `rg -n -C 2 --max-count <max_results> [-g <file_pattern>] <pattern>`
  invocation. -/
  rg : String → String → Int → ProcOutcome
  /-- The `grep -rn -C 2 -m <max_results> <pattern> .` fallback invocation. -/
  grep : String → Int → ProcOutcome
  /-- `os.path.exists` / `os.path.isdir` / `os.listdir` combined:
  `none` when the path does not exist. -/
  stat : String → Option FsNode

/-- Insertion of a directory entry into a name-sorted list (used to model
Python's `sorted(os.listdir(...))`). -/
def insertByName (e : DirEntry) : List DirEntry → List DirEntry
  | [] => [e]
  | x :: xs => if e.name ≤ x.name then e :: x :: xs else x :: insertByName e xs

/-- `sorted(os.listdir(full_path))`, with the `isdir`/`getsize` information
attached to each entry. -/
def sortByName (l : List DirEntry) : List DirEntry :=
  l.foldr insertByName []

/-- Rendering of one directory entry inside the `list_directory` loop. -/
def renderEntry : DirEntry → String
  | .dir n => s!"[DIR]  {n}/"
  | .file n size => s!"[FILE] {n} ({size} bytes)"

/-- Python's `str.strip()`: drop leading and trailing whitespace.  It is
modelled over the character list so that it evaluates by computation. -/
def pyStrip (s : String) : String :=
  String.mk
    ((s.data.dropWhile Char.isWhitespace).reverse.dropWhile
      Char.isWhitespace).reverse

/-- The body of the `try:` block of the `search_code` branch of
`execute_tool`, after argument extraction (which happens outside the
`try`).  This block catches every exception, so it always returns a
string. -/
def searchRun (env : ToolEnv) (pattern file_pattern : String)
    (max_results : Int) : String :=
  match env.rg pattern file_pattern max_results with
  | .timeout => "Search timed out (>30s). Try a more specific pattern."
  | .res rc out =>
    if rc = 1 then
      s!"No matches found for pattern '{pattern}'"
    else
      -- on rc > 1 fall back to grep; its result is used unconditionally
      match (if rc > 1 then env.grep pattern max_results else .res rc out) with
      | .timeout => "Search timed out (>30s). Try a more specific pattern."
      | .res _ out2 =>
        let output := pyStrip out2
        if output = "" then
          s!"No matches found for pattern '{pattern}'"
        else
          let output :=
            if output.length > 10000 then
              output.take 10000 ++ "\n\n[... truncated, too many results]"
            else output
          s!"=== Search results for '{pattern}' ===\n\n" ++ output

/-- The `  - <filename> (<status>, +<adds>, -<dels>)`-shaped line of
`get_pr_context`'s changed-file listing (a slash separates the counts). -/
def renderPrFile (f : PrFile) : String :=
  let name := f.filename
  let status := f.status
  let adds := f.additions
  let dels := f.deletions
  s!"  - {name} ({status}, +{adds}/-{dels})"

/-- The `files_summary` list built by `get_pr_context`: the first 20
changed files, then an overflow line when more than 20 exist. -/
def prFilesSummary (pr_files : List PrFile) : List String :=
  let base := (pr_files.take 20).map renderPrFile
  if pr_files.length > 20 then
    let extra := pr_files.length - 20
    base ++ [s!"  ... and {extra} more files"]
  else base

/-- The full output string of the `get_pr_context` tool. -/
def prContextOutput (context : ToolContext) : String :=
  let title := context.pr_data.title
  let body :=
    match context.pr_data.body with
    | some b => if b = "" then "[No description provided]" else b
    | none => "[No description provided]"
  let total := context.pr_files.length
  let listing := String.intercalate "\n" (prFilesSummary context.pr_files)
  let baseRef := context.pr_data.base_ref
  let headRef := context.pr_data.head_ref
  let sha8 := context.head_sha.take 8
  s!"=== Pull Request Context ===\n\nTitle: {title}\n\nDescription:\n{body}\n\nChanged Files ({total} total):\n{listing}\n\nBase: {baseRef}\nHead: {headRef} ({sha8})\n"

/-- The `read_file` branch of `execute_tool` after the `file_path`
extraction: the whole branch body sits in a `try:` that catches every
exception, so it always yields a string.  A non-string `file_path` makes
`os.path.join` raise inside the `try`, producing the caught-error text. -/
def readFileHandler (env : ToolEnv) (v : JVal) : String :=
  match v with
  | .num n =>
    let p := toString n
    s!"Error reading file '{p}': join() argument must be str, not int"
  | .str file_path =>
    let content :=
      match env.localFile file_path with
      | some c => c
      | none => env.remote file_path
    if content = "" then
      s!"File '{file_path}' not found or is empty."
    else
      let total := content.length
      let content :=
        if content.length > 50000 then
          content.take 50000 ++ s!"\n\n[... truncated, file is {total} chars total]"
        else content
      s!"=== Content of {file_path} ===\n\n" ++ content

/-- The `search_code` branch after argument extraction: a non-string
`pattern` or file glob makes `subprocess.run` raise inside the `try`
(caught), otherwise the search runs. -/
def searchHandler (env : ToolEnv) (patternV file_patternV : JVal)
    (max_results : Int) : String :=
  match patternV, file_patternV with
  | .num _, _ => "Error searching: expected str instance, int found"
  | _, .num _ => "Error searching: expected str instance, int found"
  | .str pattern, .str file_pattern =>
    searchRun env pattern file_pattern max_results

/-- The `list_directory` branch after the path extraction and join; its
`try:` catches every exception, so it always yields a string. -/
def listDirHandler (env : ToolEnv) (path : String) : String :=
  match env.stat path with
  | none => s!"Directory '{path}' does not exist."
  | some (.file _) => s!"'{path}' is not a directory."
  | some (.dir entries) =>
    let rendered := (sortByName entries).map renderEntry
    let disp := if path = "" then "root" else path
    if rendered.isEmpty then
      s!"Directory '{disp}' is empty."
    else
      s!"=== Contents of '{disp}' ===\n\n" ++ String.intercalate "\n" rendered

/-- `execute_tool(tool_name, tool_input, context)`.  The result is
`Except.error e` exactly when the Python function raises an exception past
its boundary; the argument extractions that sit outside the branch
`try:` blocks are the only such points. -/
def execute_tool (tool_name : String) (tool_input : ToolInput)
    (context : ToolContext) (env : ToolEnv) : Except PyErr String :=
  if tool_name = "read_file" then
    -- `tool_input["file_path"]` sits outside the try: KeyError escapes
    match getArg tool_input "file_path" with
    | none => .error (.keyError "file_path")
    | some v => .ok (readFileHandler env v)
  else if tool_name = "search_code" then
    -- `tool_input["pattern"]` sits outside the try: KeyError escapes
    match getArg tool_input "pattern" with
    | none => .error (.keyError "pattern")
    | some patternV =>
      let file_patternV := (getArg tool_input "file_pattern").getD (.str "*")
      match getArg tool_input "max_results" with
      | some (.str _) =>
        -- `min(<str>, 200)` raises TypeError outside the try
        .error (.typeError "unsupported comparison between int and str")
      | mr =>
        let max_results : Int :=
          match mr with
          | some (.num n) => min n 200
          | _ => 50
        .ok (searchHandler env patternV file_patternV max_results)
  else if tool_name = "list_directory" then
    match (getArg tool_input "path").getD (.str "") with
    | .num _ =>
      -- `os.path.join(repo_path, path)` sits outside the try: TypeError escapes
      .error (.typeError "join() argument must be str, not int")
    | .str path => .ok (listDirHandler env path)
  else if tool_name = "get_pr_context" then
    .ok (prContextOutput context)
  else
    .ok ("Unknown tool: " ++ tool_name)

/-- A `tool_use` content block of a model response
(`block.id`, `block.name`, `block.input`). -/
structure ToolUseBlock where
  id : String
  name : String
  input : ToolInput
  deriving DecidableEq, Repr

/-- A content block of a model response: a text block (has a `.text`
attribute) or a tool-use block (has none). -/
inductive ContentBlock where
  | text (value : String)
  | tool_use (b : ToolUseBlock)
  deriving DecidableEq, Repr

/-- One `{"type": "tool_result", "tool_use_id": ..., "content": ...}`
entry of a tool-result user turn. -/
structure ToolResultMsg where
  tool_use_id : String
  content : String
  deriving DecidableEq, Repr

/-- One turn of the `messages` list. -/
inductive Message where
  | user (content : String)
  | assistant (content : List ContentBlock)
  | toolResults (results : List ToolResultMsg)
  deriving DecidableEq, Repr

/-- A model response: content blocks plus the stop indicator. -/
structure Response where
  content : List ContentBlock
  stop_reason : String
  deriving DecidableEq, Repr

/-- The LLM client: `client.messages.create` as a function of whether the
tool catalogue is attached (`tools=TOOLS` vs. absent) and of the messages
sent.  Model name, token limit and system prompt are fixed for the whole
run and are not part of the state the loop varies. -/
abbrev Client := Bool → List Message → Response

/-- `"\n".join(block.text for block in content if hasattr(block, "text"))`:
text blocks joined in emission order. -/
def joinTextBlocks (content : List ContentBlock) : String :=
  String.intercalate "\n" (content.filterMap fun b =>
    match b with
    | .text s => some s
    | .tool_use _ => none)

/-- `[block for block in response.content if block.type == "tool_use"]`. -/
def toolUses (content : List ContentBlock) : List ToolUseBlock :=
  content.filterMap fun b =>
    match b with
    | .text _ => none
    | .tool_use tb => some tb

/-- The tool-execution loop body: dispatch each tool-use block in emission
order via `execute_tool`, collecting one tool result per block with the
block's id.  An exception escaping `execute_tool` aborts the whole run,
exactly like an uncaught Python exception. -/
def runTools (context : ToolContext) (env : ToolEnv) :
    List ToolUseBlock → Except PyErr (List ToolResultMsg)
  | [] => .ok []
  | b :: bs =>
    match execute_tool b.name b.input context env with
    | .error e => .error e
    | .ok result =>
      match runTools context env bs with
      | .error e => .error e
      | .ok rest => .ok (⟨b.id, result⟩ :: rest)

/-- The user turn appended when the iteration budget is exhausted. -/
def summaryPrompt : String :=
  "Please provide your final code review summary now based on everything you've discovered."

/-- The literal fallback result of `run_agentic_review_with_tools`. -/
def noOutputFallback : String :=
  "Review completed but no final output was generated."

/-- The code after the `while` loop.  `exhausted` is the value of the
`iteration >= max_iterations` test at that point: when true, one final
summary request without the tool catalogue is issued and its text returned;
otherwise the literal fallback string is returned with no further request.
The second component counts model requests made so far. -/
def finishAfterLoop (client : Client) (messages : List Message)
    (requests : Nat) (exhausted : Bool) : String × Nat :=
  if exhausted then
    let messages := messages ++ [Message.user summaryPrompt]
    let response := client false messages
    (joinTextBlocks response.content, requests + 1)
  else
    (noOutputFallback, requests)

/-- The `while iteration < max_iterations` loop, with `fuel` the number of
remaining iterations (`max_iterations - iteration`); the post-loop test
`iteration >= max_iterations` is `fuel = 0` at the exit point.  Returns the
final text and the total number of model requests, or the uncaught
exception. -/
def loopGo (client : Client) (context : ToolContext) (env : ToolEnv) :
    Nat → List Message → Nat → Except PyErr (String × Nat)
  | 0, messages, requests =>
    .ok (finishAfterLoop client messages requests true)
  | fuel + 1, messages, requests =>
    let response := client true messages
    let messages := messages ++ [Message.assistant response.content]
    let tool_use_blocks := toolUses response.content
    if tool_use_blocks.isEmpty then
      -- success-terminal: no tool calls, return the concatenated text
      .ok (joinTextBlocks response.content, requests + 1)
    else
      match runTools context env tool_use_blocks with
      | .error e => .error e
      | .ok tool_results =>
        let messages := messages ++ [Message.toolResults tool_results]
        if response.stop_reason = "end_turn" then
          -- soft terminal: break out of the loop
          .ok (finishAfterLoop client messages (requests + 1) (fuel == 0))
        else
          loopGo client context env fuel messages (requests + 1)

/-- The iteration ceiling of the tool-use loop. -/
def max_iterations : Nat := 10

/-- `run_agentic_review_with_tools`: the whole tool-use loop, starting from
the single initial user turn. -/
def run_agentic_review_with_tools (client : Client) (context : ToolContext)
    (env : ToolEnv) : Except PyErr (String × Nat) :=
  loopGo client context env max_iterations
    [Message.user "Please begin your code review."] 0

/-! Embedding of the non-tool paths of `pr_bot.py` (simple review and the
plan → per-file → synthesis agentic review) together with the pieces of
`utils.py` they use. -/

/-- The parsed planning JSON object, with the three keys
`run_agentic_review` reads (each possibly absent). -/
structure Plan where
  summary : Option String
  global_risks : Option (List String)
  focus_files : Option (List String)
  deriving DecidableEq, Repr

/-- Oracles for the side effects of `pr_bot.py`: the LLM client
(`call_llm`), `json.loads` / `json.dumps` on plans, the contents API at the
head sha, and the prompt-template files resolved once per run. -/
structure AgenticEnv where
  /-- `call_llm(prompt, system_prompt)`. -/
  callLLM : String → String → String
  /-- `json.loads` on the planning output: `none` on `JSONDecodeError`. -/
  parsePlan : String → Option Plan
  /-- `json.dumps(plan, indent=2)`. -/
  dumpsPlan : Plan → String
  /-- `get_file_content(owner, repo, head_sha, path, token)`. -/
  fetchContent : String → String
  /-- `build_simple_review_prompt()`. -/
  simpleSystem : String
  /-- `build_agentic_review_prompt()`. -/
  agenticSystem : String
  /-- `load_agentic_template("planning_template")`. -/
  planningTemplate : String
  /-- `load_agentic_template("per_file_template")`. -/
  perFileTemplate : String
  /-- `load_agentic_template("final_template")`. -/
  finalTemplate : String

/-- The `\n===== FILE: <name> (<status>) =====\n<patch>\n` chunk shared by
`build_diff` and `build_single_file_diff`. -/
def diffChunk (f : PrFile) (patch : String) : String :=
  let name := f.filename
  let status := f.status
  s!"\n===== FILE: {name} ({status}) =====\n{patch}\n"

/-- The loop of `build_diff`: skip files without a patch, stop with a
truncation marker once the running length would exceed `limit`. -/
def buildDiffGo (limit : Nat) : List PrFile → Nat → List String
  | [], _ => []
  | f :: fs, current_len =>
    match f.patch with
    | none => buildDiffGo limit fs current_len
    | some patch =>
      if patch = "" then buildDiffGo limit fs current_len
      else
        let chunk := diffChunk f patch
        if current_len + chunk.length > limit then
          ["\n[... DIFF TRUNCATED ...]\n"]
        else
          chunk :: buildDiffGo limit fs (current_len + chunk.length)

/-- `build_diff(files, limit)`. -/
def build_diff (files : List PrFile) (limit : Nat) : String :=
  String.join (buildDiffGo limit files 0)

/-- `build_single_file_diff(file, limit)`. -/
def build_single_file_diff (file : PrFile) (limit : Nat) : String :=
  match file.patch with
  | none => ""
  | some patch =>
    if patch = "" then ""
    else
      let text := diffChunk file patch
      if text.length > limit then
        text.take limit ++ "\n[... FILE DIFF TRUNCATED ...]\n"
      else text

/-- `pr.get('body') or '[no description provided]'`. -/
def bodyOrPlaceholder (pr : PrData) : String :=
  match pr.body with
  | some b => if b = "" then "[no description provided]" else b
  | none => "[no description provided]"

/-- `run_simple_review(pr, files)`: one LLM call over the trimmed diff. -/
def run_simple_review (env : AgenticEnv) (pr : PrData)
    (files : List PrFile) : String :=
  let diff := build_diff files 12000
  let title := pr.title
  let body := bodyOrPlaceholder pr
  env.callLLM
    s!"\nTitle: {title}\nDescription: {body}\n\nHere is the diff:\n\n{diff}\n"
    env.simpleSystem

/-- The planning prompt of `run_agentic_review` (diff trimmed at 8000). -/
def planningPrompt (env : AgenticEnv) (pr : PrData)
    (files : List PrFile) : String :=
  let full_diff := build_diff files 8000
  let title := pr.title
  let body := bodyOrPlaceholder pr
  let instr := env.planningTemplate
  s!"\nHere is the PR information:\n\nTitle: {title}\nDescription: {body}\n\nHere is a trimmed global diff:\n\n{full_diff}\n\n{instr}\n"

/-- `plan_raw = call_llm(planning_prompt, system_prompt)`: the planning
stage's raw model output. -/
def planRaw (env : AgenticEnv) (pr : PrData) (files : List PrFile) : String :=
  env.callLLM (planningPrompt env pr files) env.agenticSystem

/-- `file_by_name.get(filename)` where `file_by_name` is the dict
comprehension `{f["filename"]: f for f in files}` (later entries win). -/
def fileByName (files : List PrFile) (n : String) : Option PrFile :=
  files.reverse.find? (fun f => f.filename == n)

/-- The per-file analysis prompt (the fetched file content is, as in the
source, not interpolated into the prompt). -/
def perFilePrompt (env : AgenticEnv) (pr : PrData)
    (filename file_diff : String) : String :=
  let title := pr.title
  let d := if file_diff = "" then "[no diff]" else file_diff
  let instr := env.perFileTemplate
  s!"\nFile: {filename}\nPR Title: {title}\n\nDiff:\n{d}\n\nCurrent full file content (may be truncated):\n\n{instr}\n"

/-- The per-file deep-analysis loop: for each focus file that exists in the
change set and has a diff or fetched content, one LLM call producing a
`(filename, analysis)` note. -/
def perFileNotes (env : AgenticEnv) (pr : PrData) (files : List PrFile) :
    List String → List (String × String)
  | [] => []
  | filename :: rest =>
    match fileByName files filename with
    | none => perFileNotes env pr files rest
    | some f =>
      let file_diff := build_single_file_diff f 4000
      let file_content := env.fetchContent filename
      if file_diff == "" && file_content == "" then
        perFileNotes env pr files rest
      else
        let analysis := env.callLLM (perFilePrompt env pr filename file_diff)
          env.agenticSystem
        (filename, analysis) :: perFileNotes env pr files rest

/-- The `per_file_md` accumulation of `run_agentic_review`. -/
def perFileMd : List (String × String) → String
  | [] => ""
  | (n, a) :: rest => s!"\n\n---\n\n### File: `{n}`\n\n{a}\n" ++ perFileMd rest

/-- The final synthesis prompt of `run_agentic_review`. -/
def finalPrompt (env : AgenticEnv) (plan : Plan) (md : String) : String :=
  let dumped := env.dumpsPlan plan
  let per := if md = "" then "[No per-file analysis]" else md
  let instr := env.finalTemplate
  s!"\nReview plan:\n{dumped}\n\nPer-file deep analysis:\n{per}\n\n{instr}\n"

/-- `run_agentic_review(pr, files, ...)`: plan, then per-file analysis of at
most 5 focus files, then synthesis; on a plan that fails to parse, fall
back to `run_simple_review` on the same arguments. -/
def run_agentic_review (env : AgenticEnv) (pr : PrData)
    (files : List PrFile) : String :=
  let plan_raw := planRaw env pr files
  match env.parsePlan plan_raw with
  | none => run_simple_review env pr files
  | some plan =>
    let focus_files := plan.focus_files.getD []
    let notes := perFileNotes env pr files (focus_files.take 5)
    env.callLLM (finalPrompt env plan (perFileMd notes)) env.agenticSystem

/-! Decidable well-formedness of tool arguments: exactly the conditions
under which `execute_tool` extracts its arguments without an exception
(the extractions that sit outside the `try:` blocks). -/

/-- Whether an optional argument value is present and a string. -/
def isStrArg : Option JVal → Bool
  | some (.str _) => true
  | _ => false

/-- Whether an optional argument value is present and a number. -/
def isNumArg : Option JVal → Bool
  | some (.num _) => true
  | _ => false

/-- The tool arguments `execute_tool` can extract without raising:
`read_file` needs `file_path` present, `search_code` needs `pattern`
present and a non-string `max_results`, `list_directory` needs a
non-numeric `path`.  Every other failure mode is caught inside the
handlers. -/
def argsExtractable (tool_name : String) (tool_input : ToolInput) : Bool :=
  (tool_name != "read_file" || (getArg tool_input "file_path").isSome) &&
  (tool_name != "search_code" ||
    ((getArg tool_input "pattern").isSome &&
      !isStrArg (getArg tool_input "max_results"))) &&
  (tool_name != "list_directory" || !isNumArg (getArg tool_input "path"))

/-! Concrete sample data used to instantiate the theorems below. -/

/-- A sample pull-request payload. -/
def samplePrData : PrData :=
  { title := "Add feature", body := some "Adds a feature.",
    base_ref := "main", head_ref := "feature" }

/-- A sample tool context with no changed files. -/
def sampleCtx : ToolContext :=
  { owner := "octo", repo := "demo", pr_number := 7,
    head_sha := "0123456789abcdef", github_token := "tok",
    repo_path := "/workdir", pr_data := samplePrData, pr_files := [] }

/-- A sample environment in which every oracle reports absence. -/
def sampleEnv : ToolEnv :=
  { localFile := fun _ => none, remote := fun _ => "",
    rg := fun _ _ _ => .res 1 "", grep := fun _ _ => .res 1 "",
    stat := fun _ => none }

/-- One sample changed-file descriptor. -/
def sampleFile : PrFile :=
  { filename := "src/main.py", status := "modified",
    additions := 3, deletions := 1, patch := some "@@ -1 +1 @@" }

/-- A tool context whose pull request changes 25 files. -/
def sampleCtx25 : ToolContext :=
  { sampleCtx with pr_files := List.replicate 25 sampleFile }

/-- A search output longer than the 10,000-character ceiling. -/
def longOut : String := String.mk (List.replicate 10001 'x')

/-- An environment whose search invocation succeeds with an over-long
output. -/
def envLongSearch : ToolEnv :=
  { sampleEnv with rg := fun _ _ _ => .res 0 longOut }

/-- A client that answers every request with text only. -/
def clientTextOnly : Client := fun _ _ =>
  { content := [.text "Looks good"], stop_reason := "end_turn" }

/-- A client that requests two (unknown) tools per turn and never signals
end of turn. -/
def clientTwoTools : Client := fun _ _ =>
  { content := [.tool_use ⟨"id1", "alpha", []⟩, .tool_use ⟨"id2", "beta", []⟩],
    stop_reason := "tool_use" }

/-- A client that requests a tool and simultaneously signals a natural end
of turn, and that answers a tool-less (summary) request with the text
`SUMMARY`. -/
def clientSoftEnd : Client := fun withTools _ =>
  if withTools then
    { content := [.tool_use ⟨"id1", "alpha", []⟩], stop_reason := "end_turn" }
  else
    { content := [.text "SUMMARY"], stop_reason := "end_turn" }

/-- A client that requests a tool on every tool-bearing request and answers
the tool-less summary request with no text blocks at all. -/
def clientBusy : Client := fun withTools _ =>
  if withTools then
    { content := [.tool_use ⟨"id1", "alpha", []⟩], stop_reason := "tool_use" }
  else
    { content := [], stop_reason := "end_turn" }

/-- A sample environment for the non-tool review paths whose planning
output never parses as JSON. -/
def sampleAgenticEnv : AgenticEnv :=
  { callLLM := fun _ _ => "this is not json",
    parsePlan := fun _ => none,
    dumpsPlan := fun _ => "{}",
    fetchContent := fun _ => "",
    simpleSystem := "simple system", agenticSystem := "agentic system",
    planningTemplate := "plan it", perFileTemplate := "per file",
    finalTemplate := "final" }

/-! Theorems about the Tool Dispatcher. -/

/-- C10: for every tool name outside the catalogue
`{read_file, search_code, list_directory, get_pr_context}` and every
argument mapping, `execute_tool` returns the string `Unknown tool: <name>`
rather than raising, so a request for a non-existent tool is absorbed as a
normal textual tool result. -/
theorem execute_tool_unknown_tool (tool_name : String)
    (tool_input : ToolInput) (context : ToolContext) (env : ToolEnv)
    (h1 : tool_name ≠ "read_file") (h2 : tool_name ≠ "search_code")
    (h3 : tool_name ≠ "list_directory") (h4 : tool_name ≠ "get_pr_context") :
    execute_tool tool_name tool_input context env
      = .ok ("Unknown tool: " ++ tool_name) := by
  unfold execute_tool
  rw [if_neg h1, if_neg h2, if_neg h3, if_neg h4]

/-- C10 witness: invoking the non-existent tool `run_tests` yields the
textual result `Unknown tool: run_tests`. -/
theorem execute_tool_unknown_tool_witness :
    execute_tool "run_tests" [] sampleCtx sampleEnv
      = .ok ("Unknown tool: run_tests") :=
  execute_tool_unknown_tool "run_tests" [] sampleCtx sampleEnv
    (by decide) (by decide) (by decide) (by decide)

/-- C2 counterexample: `execute_tool` does not return a string for every
argument mapping — with a mapping missing the required argument, the
`read_file` and `search_code` branches raise `KeyError` past the
dispatcher's boundary, because the required-argument subscripts sit before
the branch `try:` blocks. -/
theorem execute_tool_missing_arg_counterexample :
    execute_tool "read_file" [] sampleCtx sampleEnv
      = .error (.keyError "file_path") ∧
    execute_tool "search_code" [] sampleCtx sampleEnv
      = .error (.keyError "pattern") :=
  ⟨rfl, rfl⟩

/-- C2 amended: `execute_tool` returns a string (never an escaping
exception) for every tool name and every argument mapping whose
outside-the-`try` extractions succeed: `file_path` present for
`read_file`, `pattern` present and `max_results` non-string for
`search_code`, and `path` non-numeric for `list_directory`; within the
branch handlers every failure is caught and converted to a textual error
result. -/
theorem execute_tool_total_on_extractable_args (tool_name : String)
    (tool_input : ToolInput) (context : ToolContext) (env : ToolEnv)
    (h : argsExtractable tool_name tool_input = true) :
    ∃ s, execute_tool tool_name tool_input context env = Except.ok s := by
  unfold argsExtractable at h
  rw [Bool.and_eq_true, Bool.and_eq_true] at h
  obtain ⟨⟨hA, hB⟩, hC⟩ := h
  unfold execute_tool
  by_cases hr : tool_name = "read_file"
  · rw [if_pos hr]
    rw [hr] at hA
    simp only [bne_self_eq_false, Bool.false_or] at hA
    obtain ⟨v, hv⟩ := Option.isSome_iff_exists.mp hA
    rw [hv]
    exact ⟨_, rfl⟩
  · rw [if_neg hr]
    by_cases hs : tool_name = "search_code"
    · rw [if_pos hs]
      rw [hs] at hB
      simp only [bne_self_eq_false, Bool.false_or, Bool.and_eq_true,
        Bool.not_eq_true'] at hB
      obtain ⟨hB1, hB2⟩ := hB
      obtain ⟨v, hv⟩ := Option.isSome_iff_exists.mp hB1
      rw [hv]
      rcases hm : getArg tool_input "max_results" with _ | w
      · exact ⟨_, rfl⟩
      · cases w with
        | str s => rw [hm] at hB2; simp [isStrArg] at hB2
        | num n => exact ⟨_, rfl⟩
    · rw [if_neg hs]
      by_cases hl : tool_name = "list_directory"
      · rw [if_pos hl]
        rw [hl] at hC
        simp only [bne_self_eq_false, Bool.false_or, Bool.not_eq_true'] at hC
        rcases hp : getArg tool_input "path" with _ | w
        · exact ⟨_, rfl⟩
        · cases w with
          | num n => rw [hp] at hC; simp [isNumArg] at hC
          | str p => exact ⟨_, rfl⟩
      · rw [if_neg hl]
        by_cases hg : tool_name = "get_pr_context"
        · rw [if_pos hg]
          exact ⟨_, rfl⟩
        · rw [if_neg hg]
          exact ⟨_, rfl⟩

/-- C2 amended witness: a well-formed `read_file` invocation on the sample
context produces a textual result. -/
theorem execute_tool_total_witness :
    argsExtractable "read_file" [("file_path", JVal.str "README.md")] = true ∧
    ∃ s, execute_tool "read_file" [("file_path", JVal.str "README.md")]
      sampleCtx sampleEnv = Except.ok s :=
  ⟨by decide,
   execute_tool_total_on_extractable_args "read_file"
     [("file_path", JVal.str "README.md")] sampleCtx sampleEnv (by decide)⟩

/-- C7: `search_code` clamps a `max_results` argument above 200 to 200 and
defaults it to 50 when absent (first two conjuncts: the search subprocess
is invoked with the clamped bound), and output whose stripped text exceeds
the 10,000-character ceiling is cut at 10,000 characters with the
truncation marker appended exactly once — on the primary search path and
on the fallback path alike (last two conjuncts). -/
theorem search_code_bounds :
    (∀ (tool_input : ToolInput) (context : ToolContext) (env : ToolEnv)
       (p fp : String) (m : Int),
      getArg tool_input "pattern" = some (.str p) →
      (getArg tool_input "file_pattern").getD (.str "*") = .str fp →
      getArg tool_input "max_results" = some (.num m) → 200 < m →
      execute_tool "search_code" tool_input context env
        = .ok (searchRun env p fp 200)) ∧
    (∀ (tool_input : ToolInput) (context : ToolContext) (env : ToolEnv)
       (p fp : String),
      getArg tool_input "pattern" = some (.str p) →
      (getArg tool_input "file_pattern").getD (.str "*") = .str fp →
      getArg tool_input "max_results" = none →
      execute_tool "search_code" tool_input context env
        = .ok (searchRun env p fp 50)) ∧
    (∀ (env : ToolEnv) (p fp : String) (m rc : Int) (out : String),
      env.rg p fp m = .res rc out → rc ≠ 1 → ¬ (1 : Int) < rc →
      10000 < (pyStrip out).length →
      searchRun env p fp m
        = "=== Search results for '" ++ p ++ "' ===\n\n"
          ++ ((pyStrip out).take 10000 ++ "\n\n[... truncated, too many results]")) ∧
    (∀ (env : ToolEnv) (p fp : String) (m rc : Int) (out : String)
       (rc2 : Int) (out2 : String),
      env.rg p fp m = .res rc out → (1 : Int) < rc →
      env.grep p m = .res rc2 out2 →
      10000 < (pyStrip out2).length →
      searchRun env p fp m
        = "=== Search results for '" ++ p ++ "' ===\n\n"
          ++ ((pyStrip out2).take 10000 ++ "\n\n[... truncated, too many results]")) := by
  refine ⟨?_, ?_, ?_, ?_⟩
  · intro tool_input context env p fp m hpat hfp hmax hgt
    unfold execute_tool
    rw [if_neg (by decide), if_pos rfl, hpat]
    simp only
    rw [hfp, hmax]
    simp only
    rw [min_eq_right (le_of_lt hgt)]
    rfl
  · intro tool_input context env p fp hpat hfp hmax
    unfold execute_tool
    rw [if_neg (by decide), if_pos rfl, hpat]
    simp only
    rw [hfp, hmax]
    rfl
  · intro env p fp m rc out hrg hne hle hlen
    have hout : pyStrip out ≠ "" := by
      intro e
      rw [e] at hlen
      simp at hlen
    unfold searchRun
    rw [hrg]
    simp only
    rw [if_neg hne, if_neg hle]
    simp only
    rw [if_neg hout, if_pos hlen]
    rfl
  · intro env p fp m rc out rc2 out2 hrg hgt hgrep hlen
    have hout : pyStrip out2 ≠ "" := by
      intro e
      rw [e] at hlen
      simp at hlen
    unfold searchRun
    rw [hrg]
    simp only
    rw [if_neg (by omega : ¬ rc = 1), if_pos hgt, hgrep]
    simp only
    rw [if_neg hout, if_pos hlen]
    rfl

/-- Dropping while a predicate that holds nowhere on the list leaves the
list unchanged. -/
theorem dropWhile_eq_self_of_all_false (p : Char → Bool) :
    ∀ l : List Char, (∀ x ∈ l, p x = false) → l.dropWhile p = l
  | [], _ => rfl
  | c :: cs, h => by
    simp [List.dropWhile_cons, h c (List.mem_cons_self c cs)]

/-- `pyStrip` is the identity on whitespace-free strings. -/
theorem pyStrip_eq_self (s : String)
    (h : ∀ x ∈ s.data, x.isWhitespace = false) : pyStrip s = s := by
  unfold pyStrip
  rw [dropWhile_eq_self_of_all_false _ _ h,
    dropWhile_eq_self_of_all_false _ _ (fun x hx => h x (List.mem_reverse.mp hx)),
    List.reverse_reverse]

/-- C7 witness: a `max_results` of 500 behaves as 200, and an over-long
search output is truncated at 10,000 characters with the marker appended. -/
theorem search_code_bounds_witness :
    execute_tool "search_code"
        [("pattern", JVal.str "foo"), ("max_results", JVal.num 500)]
        sampleCtx sampleEnv
      = .ok (searchRun sampleEnv "foo" "*" 200) ∧
    searchRun envLongSearch "foo" "*" 50
      = "=== Search results for '" ++ "foo" ++ "' ===\n\n"
        ++ ((pyStrip longOut).take 10000 ++ "\n\n[... truncated, too many results]") := by
  constructor
  · exact search_code_bounds.1 _ sampleCtx sampleEnv "foo" "*" 500
      rfl rfl rfl (by decide)
  · refine search_code_bounds.2.2.1 envLongSearch "foo" "*" 50 0 longOut
      rfl (by decide) (by decide) ?_
    have h1 : pyStrip longOut = longOut :=
      pyStrip_eq_self longOut (fun x hx => by
        rw [List.eq_of_mem_replicate hx]
        decide)
    rw [h1]
    show 10000 < (List.replicate 10001 'x').length
    rw [List.length_replicate]
    omega

/-- C8: `get_pr_context` renders `prContextOutput`; its changed-file
listing shows exactly the first 20 entries followed by an overflow notice
stating the count of remaining files when more than 20 files changed, and
all files with no overflow notice otherwise. -/
theorem get_pr_context_file_cap (context : ToolContext)
    (tool_input : ToolInput) (env : ToolEnv) :
    execute_tool "get_pr_context" tool_input context env
      = .ok (prContextOutput context) ∧
    (20 < context.pr_files.length →
      prFilesSummary context.pr_files
        = (context.pr_files.take 20).map renderPrFile
          ++ ["  ... and " ++ toString (context.pr_files.length - 20)
              ++ " more files"]) ∧
    (context.pr_files.length ≤ 20 →
      prFilesSummary context.pr_files
        = context.pr_files.map renderPrFile) := by
  refine ⟨rfl, fun h => ?_, fun h => ?_⟩
  · unfold prFilesSummary
    rw [if_pos h]
    rfl
  · unfold prFilesSummary
    rw [if_neg (not_lt.mpr h), List.take_of_length_le h]

/-- C8 witness: with 25 changed files the listing shows the first 20
entries and the overflow notice `... and 5 more files`. -/
theorem get_pr_context_file_cap_witness :
    execute_tool "get_pr_context" [] sampleCtx25 sampleEnv
      = .ok (prContextOutput sampleCtx25) ∧
    prFilesSummary sampleCtx25.pr_files
      = (sampleCtx25.pr_files.take 20).map renderPrFile
        ++ ["  ... and 5 more files"] := by
  constructor
  · exact (get_pr_context_file_cap sampleCtx25 [] sampleEnv).1
  · exact (get_pr_context_file_cap sampleCtx25 [] sampleEnv).2.1 (by decide)

/-! Theorems about the Agentic Loop Controller. -/

/-- C4: for every model response containing zero tool-invocation blocks,
the loop returns immediately: the response's text blocks are joined in
emission order (newline-separated, as the source concatenates them) and
returned as the final result, with exactly one more model request counted,
so no further requests are issued in that run. -/
theorem loop_returns_on_no_tool_use (client : Client) (context : ToolContext)
    (env : ToolEnv) (fuel : Nat) (messages : List Message) (requests : Nat)
    (h : toolUses (client true messages).content = []) :
    loopGo client context env (fuel + 1) messages requests
      = .ok (joinTextBlocks (client true messages).content, requests + 1) := by
  simp only [loopGo]
  rw [h]
  rfl

/-- C4 witness: a text-only first response ends the loop at once with that
text after a single request. -/
theorem loop_returns_on_no_tool_use_witness :
    loopGo clientTextOnly sampleCtx sampleEnv 10 [] 0
      = .ok ("Looks good", 1) :=
  loop_returns_on_no_tool_use clientTextOnly sampleCtx sampleEnv 9 [] 0 rfl

/-- Pointwise specification of `runTools`: a successful dispatch yields one
result per block, in order, with matching invocation ids and with each
content equal to the dispatcher's output on that block. -/
theorem runTools_spec (context : ToolContext) (env : ToolEnv)
    (blocks : List ToolUseBlock) :
    ∀ results : List ToolResultMsg,
      runTools context env blocks = .ok results →
      results.length = blocks.length ∧
      ∀ i (h1 : i < results.length) (h2 : i < blocks.length),
        (results.get ⟨i, h1⟩).tool_use_id = (blocks.get ⟨i, h2⟩).id ∧
        execute_tool (blocks.get ⟨i, h2⟩).name (blocks.get ⟨i, h2⟩).input
          context env = .ok (results.get ⟨i, h1⟩).content := by
  induction blocks with
  | nil =>
    intro results h
    simp only [runTools] at h
    injection h with h'
    subst h'
    exact ⟨rfl, fun i h1 _ => absurd h1 (by simp)⟩
  | cons b bs ih =>
    intro results h
    simp only [runTools] at h
    rcases he : execute_tool b.name b.input context env with e | r
    · rw [he] at h
      cases h
    · rw [he] at h
      rcases hr : runTools context env bs with e2 | rest
      · rw [hr] at h
        cases h
      · rw [hr] at h
        injection h with h'
        subst h'
        obtain ⟨hlen, hpt⟩ := ih rest hr
        refine ⟨by simp [hlen], ?_⟩
        intro i h1 h2
        cases i with
        | zero => exact ⟨rfl, he⟩
        | succ j =>
          exact hpt j (by simpa using h1) (by simpa using h2)

/-- C5: for every response with N ≥ 1 tool-invocation blocks (whatever its
stop indicator), the dispatcher is invoked once per block in emission
order, producing exactly N results whose ids match the invocations
pairwise in the same order (first two conjuncts), and the loop appends
exactly one tool-result user turn carrying exactly that result list
directly after the assistant turn before it either breaks on the
soft-terminal signal or continues iterating (third conjunct). -/
theorem tool_results_match_invocations (client : Client)
    (context : ToolContext) (env : ToolEnv) (fuel : Nat)
    (messages : List Message) (requests : Nat)
    (results : List ToolResultMsg)
    (hne : toolUses (client true messages).content ≠ [])
    (hrun : runTools context env (toolUses (client true messages).content)
      = .ok results) :
    results.length = (toolUses (client true messages).content).length ∧
    (∀ i (h1 : i < results.length)
        (h2 : i < (toolUses (client true messages).content).length),
      (results.get ⟨i, h1⟩).tool_use_id
        = ((toolUses (client true messages).content).get ⟨i, h2⟩).id ∧
      execute_tool
          ((toolUses (client true messages).content).get ⟨i, h2⟩).name
          ((toolUses (client true messages).content).get ⟨i, h2⟩).input
          context env
        = .ok ((results.get ⟨i, h1⟩).content)) ∧
    loopGo client context env (fuel + 1) messages requests
      = (if (client true messages).stop_reason = "end_turn" then
          .ok (finishAfterLoop client
            ((messages ++ [Message.assistant (client true messages).content])
              ++ [Message.toolResults results]) (requests + 1) (fuel == 0))
        else
          loopGo client context env fuel
            ((messages ++ [Message.assistant (client true messages).content])
              ++ [Message.toolResults results]) (requests + 1)) := by
  obtain ⟨hlen, hpt⟩ := runTools_spec context env _ results hrun
  refine ⟨hlen, hpt, ?_⟩
  simp only [loopGo]
  rw [if_neg (by simpa using hne)]
  simp only [hrun]

/-- C5 witness: two invocations in one response produce exactly two
results in order, with one tool-result user turn appended after the
assistant turn, both on a continuing response and on a soft-terminal
(end-of-turn) response. -/
theorem tool_results_match_invocations_witness :
    ([⟨"id1", "Unknown tool: alpha"⟩, ⟨"id2", "Unknown tool: beta"⟩]
        : List ToolResultMsg).length
      = (toolUses (clientTwoTools true []).content).length ∧
    loopGo clientTwoTools sampleCtx sampleEnv 3 [] 0
      = loopGo clientTwoTools sampleCtx sampleEnv 2
          (([] ++ [Message.assistant (clientTwoTools true []).content])
            ++ [Message.toolResults
                [⟨"id1", "Unknown tool: alpha"⟩,
                 ⟨"id2", "Unknown tool: beta"⟩]]) 1 ∧
    loopGo clientSoftEnd sampleCtx sampleEnv 5 [] 0
      = .ok (finishAfterLoop clientSoftEnd
          (([] ++ [Message.assistant (clientSoftEnd true []).content])
            ++ [Message.toolResults [⟨"id1", "Unknown tool: alpha"⟩]])
          1 (4 == 0)) := by
  have h := tool_results_match_invocations clientTwoTools sampleCtx sampleEnv
    2 [] 0 [⟨"id1", "Unknown tool: alpha"⟩, ⟨"id2", "Unknown tool: beta"⟩]
    (by decide) rfl
  have hs := tool_results_match_invocations clientSoftEnd sampleCtx sampleEnv
    4 [] 0 [⟨"id1", "Unknown tool: alpha"⟩] (by decide) rfl
  exact ⟨h.1, h.2.2, hs.2.2⟩

/-- Request-count invariant of the loop: a successful run starting with
`fuel` remaining iterations adds at most `fuel + 1` requests. -/
theorem loopGo_requests_le (client : Client) (context : ToolContext)
    (env : ToolEnv) :
    ∀ (fuel : Nat) (messages : List Message) (requests : Nat) (t : String)
      (n : Nat),
      loopGo client context env fuel messages requests = .ok (t, n) →
      n ≤ requests + fuel + 1 := by
  intro fuel
  induction fuel with
  | zero =>
    intro messages requests t n h
    simp only [loopGo, finishAfterLoop, if_true] at h
    simp only [Except.ok.injEq, Prod.mk.injEq] at h
    omega
  | succ fuel ih =>
    intro messages requests t n h
    simp only [loopGo] at h
    split at h
    · simp only [Except.ok.injEq, Prod.mk.injEq] at h
      omega
    · split at h
      · cases h
      · split at h
        · simp only [finishAfterLoop] at h
          split at h <;>
            (simp only [Except.ok.injEq, Prod.mk.injEq] at h; omega)
        · have := ih _ _ _ _ h
          omega

/-- C3: the loop performs at most `max_iterations` request/dispatch/append
cycles; at budget exhaustion it forces exactly one final summary request
without the tool catalogue (second conjunct), so a completed run makes at
most `max_iterations + 1` model requests in total (first conjunct). -/
theorem total_requests_bounded :
    (∀ (client : Client) (context : ToolContext) (env : ToolEnv)
       (t : String) (n : Nat),
      run_agentic_review_with_tools client context env = .ok (t, n) →
      n ≤ max_iterations + 1) ∧
    (∀ (client : Client) (context : ToolContext) (env : ToolEnv)
       (messages : List Message) (requests : Nat),
      loopGo client context env 0 messages requests
        = .ok (joinTextBlocks
            (client false (messages ++ [Message.user summaryPrompt])).content,
          requests + 1)) := by
  constructor
  · intro client context env t n h
    have hb := loopGo_requests_le client context env max_iterations
      [Message.user "Please begin your code review."] 0 t n h
    omega
  · intro client context env messages requests
    rfl

/-- C3 witness: a run ending on its first response makes one request,
within the `max_iterations + 1` bound. -/
theorem total_requests_bounded_witness : (1 : Nat) ≤ max_iterations + 1 :=
  total_requests_bounded.1 clientTextOnly sampleCtx sampleEnv "Looks good" 1
    rfl

/-- C1 counterexample: with a client whose very first response contains a
tool invocation and signals a natural end of turn, the run breaks out of
the loop and returns the literal fallback string after a single model
request: no summary user turn is appended, no catalogue-free request is
issued, and the summary text the client would have produced is not
returned — refuting the claim that the soft-terminal case triggers the
iteration-budget exhaustion handling. -/
theorem soft_terminal_counterexample :
    run_agentic_review_with_tools clientSoftEnd sampleCtx sampleEnv
      = .ok (noOutputFallback, 1) ∧
    noOutputFallback ≠ "SUMMARY" :=
  ⟨rfl, by decide⟩

/-- C1 amended: the soft-terminal break triggers the iteration-budget
exhaustion handling (summary turn, one catalogue-free request, its text
returned) only when the break falls on the final permitted iteration
(remaining budget 0); on any earlier iteration the loop instead returns
the literal no-output fallback string immediately, with no further model
request. -/
theorem soft_terminal_summary_only_on_last_iteration (client : Client)
    (context : ToolContext) (env : ToolEnv) (fuel : Nat)
    (messages : List Message) (requests : Nat)
    (results : List ToolResultMsg)
    (hne : toolUses (client true messages).content ≠ [])
    (hrun : runTools context env (toolUses (client true messages).content)
      = .ok results)
    (hstop : (client true messages).stop_reason = "end_turn") :
    (fuel = 0 →
      loopGo client context env (fuel + 1) messages requests
        = .ok (joinTextBlocks (client false
            (((messages
                ++ [Message.assistant (client true messages).content])
              ++ [Message.toolResults results])
              ++ [Message.user summaryPrompt])).content,
          requests + 1 + 1)) ∧
    (fuel ≠ 0 →
      loopGo client context env (fuel + 1) messages requests
        = .ok (noOutputFallback, requests + 1)) := by
  constructor
  · intro hf
    subst hf
    simp only [loopGo]
    rw [if_neg (by simpa using hne)]
    simp only [hrun]
    rw [if_pos hstop]
    rfl
  · intro hf
    obtain ⟨k, rfl⟩ : ∃ k, fuel = k + 1 := ⟨fuel - 1, by omega⟩
    simp only [loopGo]
    rw [if_neg (by simpa using hne)]
    simp only [hrun]
    rw [if_pos hstop]
    rfl

/-- C1 amended witness: the soft-terminal client breaking on the final
iteration does receive the summary request (two requests, summary text
returned), while breaking with budget remaining yields the fallback after
one request. -/
theorem soft_terminal_summary_witness :
    loopGo clientSoftEnd sampleCtx sampleEnv 1 [] 0 = .ok ("SUMMARY", 2) ∧
    loopGo clientSoftEnd sampleCtx sampleEnv 2 [] 0
      = .ok (noOutputFallback, 1) := by
  constructor
  · exact (soft_terminal_summary_only_on_last_iteration clientSoftEnd
      sampleCtx sampleEnv 0 [] 0 [⟨"id1", "Unknown tool: alpha"⟩]
      (by decide) rfl rfl).1 rfl
  · exact (soft_terminal_summary_only_on_last_iteration clientSoftEnd
      sampleCtx sampleEnv 1 [] 0 [⟨"id1", "Unknown tool: alpha"⟩]
      (by decide) rfl rfl).2 (by decide)

/-- C6 counterexample: with a client that requests a tool on every
iteration and whose summary response carries no text blocks, the run
exhausts all 10 iterations, issues the summary request (11 requests in
total) and returns the empty string — not the literal fallback string —
refuting the claim that an empty summary text yields the fallback. -/
theorem empty_summary_counterexample :
    run_agentic_review_with_tools clientBusy sampleCtx sampleEnv
      = .ok ("", 11) ∧
    ("" : String) ≠ noOutputFallback :=
  ⟨rfl, by decide⟩

/-- C6 amended: on the exhaustion path the summary request's text is
returned unconditionally — in particular the empty string when the
summary response has no text; the literal no-output fallback string is
produced only by a soft-terminal break before the final iteration, never
by the exhaustion path. -/
theorem exhausted_empty_summary_returns_empty (client : Client)
    (context : ToolContext) (env : ToolEnv) (messages : List Message)
    (requests : Nat)
    (h : joinTextBlocks
        (client false (messages ++ [Message.user summaryPrompt])).content
      = "") :
    loopGo client context env 0 messages requests
      = .ok ("", requests + 1) := by
  have he : loopGo client context env 0 messages requests
      = Except.ok (joinTextBlocks
          (client false (messages ++ [Message.user summaryPrompt])).content,
        requests + 1) := rfl
  rw [he, h]

/-- C6 amended witness: the busy client's empty summary at exhaustion
yields the empty string. -/
theorem exhausted_empty_summary_witness :
    loopGo clientBusy sampleCtx sampleEnv 0 [] 0 = .ok ("", 1) :=
  exhausted_empty_summary_returns_empty clientBusy sampleCtx sampleEnv [] 0
    rfl

/-! Theorem about the non-tool agentic review path. -/

/-- C9: in the non-tool agentic mode, whenever the planning-stage model
output fails to parse as structured JSON, the run does not abort: it
returns exactly the result of the single-shot simple review over the same
PR and change set. -/
theorem plan_parse_failure_falls_back (env : AgenticEnv) (pr : PrData)
    (files : List PrFile)
    (h : env.parsePlan (planRaw env pr files) = none) :
    run_agentic_review env pr files = run_simple_review env pr files := by
  simp only [run_agentic_review]
  rw [h]

/-- C9 witness: with a planning output that is not JSON, the agentic
review equals the simple review on the sample PR. -/
theorem plan_parse_failure_falls_back_witness :
    run_agentic_review sampleAgenticEnv samplePrData [sampleFile]
      = run_simple_review sampleAgenticEnv samplePrData [sampleFile] :=
  plan_parse_failure_falls_back sampleAgenticEnv samplePrData [sampleFile]
    rfl

end PrBot
